import Mathlib

/-!
libcoro network descriptors: `coro::net::socket`, the socket factory and `coro::net::udp::peer`.

A shallow embedding of `src/net/socket.cpp` and `src/net/udp/peer.cpp`.

* C `int` values are `Int`.  The only arithmetic the code performs on them is bitwise
  (`|`, `&`, `~`), which never overflows and agrees with two's complement on `Int`.
* The operating system is the environment of the code.  It is a parameter `os : OS σ`:
  an arbitrary deterministic transition function from a kernel state and a system call to a
  return value and a new kernel state.  Every system call the code issues is appended, with its
  return value, to a trace (`World.log`), so "issues no OS call" is "the world is unchanged".
* `Kernel` / `posix` is one concrete POSIX-like instance of `OS`, with scripted failures, used
  where a statement is about what the kernel stores (descriptor flags, socket options).
* C++ exceptions are `Except runtime_error`; stack unwinding runs the destructor of the local
  `socket`.
* Object identity (`std::addressof(other) != this`) is an address in a `Heap` of sockets.
-/

namespace coro.net

/-! ## Constants of the platform headers (Linux values) -/

/-- The value of `SOCK_STREAM` in `<sys/socket.h>`. -/
def SOCK_STREAM : Int := 1
/-- The value of `SOCK_DGRAM` in `<sys/socket.h>`. -/
def SOCK_DGRAM : Int := 2
/-- The value of `O_NONBLOCK` in `<fcntl.h>` (octal 04000). -/
def O_NONBLOCK : Int := 2048
/-- The position of the single bit of `O_NONBLOCK`: `O_NONBLOCK = 2 ^ 11`. -/
def O_NONBLOCK_BIT : Nat := 11
/-- The value of `O_RDWR` in `<fcntl.h>`. -/
def O_RDWR : Int := 2
/-- The value of `SHUT_RD`. -/
def SHUT_RD : Int := 0
/-- The value of `SHUT_WR`. -/
def SHUT_WR : Int := 1
/-- The value of `SHUT_RDWR`. -/
def SHUT_RDWR : Int := 2
/-- The value of `SOL_SOCKET`. -/
def SOL_SOCKET : Int := 1
/-- The value of `SO_REUSEADDR`. -/
def SO_REUSEADDR : Int := 2
/-- The value of `SO_REUSEPORT`. -/
def SO_REUSEPORT : Int := 15
/-- The value of `IPPROTO_IP`. -/
def IPPROTO_IP : Int := 0
/-- The value of `IP_MULTICAST_LOOP`. -/
def IP_MULTICAST_LOOP : Int := 34
/-- The value of `IP_ADD_MEMBERSHIP`. -/
def IP_ADD_MEMBERSHIP : Int := 35
/-- The value of `INADDR_ANY`. -/
def INADDR_ANY : Int := 0
/-- The value of `AF_INET`. -/
def AF_INET : Int := 2
/-- The value of `AF_INET6`. -/
def AF_INET6 : Int := 10

/-! ## Types declared in the headers -/

/-- The enumeration `domain_t` of the address family, declared in the header
`coro/net/ip_address.hpp`, which is not among the sources.  The code only converts a value with
`static_cast<int>`, so a value is represented by that integer. -/
structure domain_t where
  val : Int
  deriving DecidableEq, Repr

/-- Modelled from the spec: the address family ipv4, with the OS constant `AF_INET`. -/
def domain_t.ipv4 : domain_t := ⟨AF_INET⟩

/-- Modelled from the spec: the address family ipv6, with the OS constant `AF_INET6`. -/
def domain_t.ipv6 : domain_t := ⟨AF_INET6⟩

/-- The conversion `static_cast<int>(domain)`. -/
def domain_t.to_int (d : domain_t) : Int := d.val

/-- Modelled from the spec: `socket::type_t`, the transport kind (tcp | udp), declared in the
header `coro/net/socket.hpp`, which is not among the sources.  A C++ enumeration can hold values
that are none of its enumerators (the `default:` label of `socket::type_to_os` is what handles
them); `unknown raw` stands for such a value. -/
inductive type_t where
  | udp
  | tcp
  | unknown (raw : Int)
  deriving DecidableEq, Repr

/-- Modelled from the spec: `socket::blocking_t`, the blocking mode (blocking | non-blocking),
declared in the absent header `coro/net/socket.hpp`; `yes` is blocking, `no` is non-blocking. -/
inductive blocking_t where
  | yes
  | no
  deriving DecidableEq, Repr

/-- Modelled from the spec: `poll_op`, the shutdown direction (read | write | read+write),
declared in a header that is not among the sources. -/
inductive poll_op where
  | read
  | write
  | read_write
  deriving DecidableEq, Repr

/-- Modelled from the spec: `socket::options`, the configuration bundle
(address family, transport kind, blocking mode) of the absent header `coro/net/socket.hpp`.
The field `type` of the source is `type_`, the field `domain` keeps its name. -/
structure options where
  domain : domain_t
  type_ : type_t
  blocking : blocking_t
  deriving DecidableEq, Repr

/-- Modelled from the spec: `net::ip_address`, the address value of the absent header
`coro/net/ip_address.hpp`: its family (`domain()`) and its raw bytes (`data()`). -/
structure ip_address where
  domain : domain_t
  data : List Nat
  deriving DecidableEq, Repr

/-- The exception `std::runtime_error`, carrying its message (`what()`). -/
structure runtime_error where
  what : String
  deriving DecidableEq, Repr

/-- The failure `UnsupportedTransportKind` of the spec: the exception of `socket::type_to_os`. -/
def UnsupportedTransportKind : runtime_error := ⟨"Unknown socket::type_t."⟩
/-- The failure `SocketCreationFailed` of the spec. -/
def SocketCreationFailed : runtime_error := ⟨"Failed to create socket."⟩
/-- The failure `NonBlockingConfigurationFailed` of the spec. -/
def NonBlockingConfigurationFailed : runtime_error :=
  ⟨"Failed to set socket to non-blocking mode."⟩
/-- The failure `SocketOptionFailed` of the spec, as thrown for the reuse option. -/
def SocketOptionFailed : runtime_error := ⟨"Failed to setsockopt(SO_REUSEADDR | SO_REUSEPORT)"⟩
/-- The failure `SocketOptionFailed` of the spec, as thrown for multicast loopback. -/
def MulticastLoopFailed : runtime_error := ⟨"Failed to setsockopt(IP_MULTICAST_LOOP)"⟩
/-- The failure `SocketOptionFailed` of the spec, as thrown for the group join. -/
def MulticastJoinFailed : runtime_error := ⟨"Failed to setsockopt(IP_ADD_MEMBERSHIP)"⟩
/-- The failure `BindFailed` of the spec. -/
def BindFailed : runtime_error := ⟨"Failed to bind."⟩
/-- The failure `ListenFailed` of the spec. -/
def ListenFailed : runtime_error := ⟨"Failed to listen."⟩

/-! ## The operating system -/

/-- The `sockaddr_in` record handed to `bind`: `sin_family`, `sin_port` as its two bytes in
network order (what `htons` stores), and `sin_addr` as the first four bytes of the address. -/
structure sockaddr_in where
  sin_family : Int
  sin_port : List Nat
  sin_addr : List Nat
  deriving DecidableEq, Repr

/-- The value a `setsockopt` call points at: an `int`, or an `ip_mreq` whose `imr_multiaddr` is
`inet_addr` of the textual form of the recorded address. -/
inductive optval where
  | int (v : Int)
  | ip_mreq (imr_multiaddr : ip_address) (imr_interface : Int)
  deriving DecidableEq, Repr

/-- The system calls issued by the code, with their arguments. -/
inductive Call where
  | socket (domain type_ protocol : Int)
  | dup (fd : Int)
  | fcntl_getfl (fd : Int)
  | fcntl_setfl (fd : Int) (flags : Int)
  | shutdown (fd : Int) (how : Int)
  | close (fd : Int)
  | setsockopt (fd level optname : Int) (val : optval)
  | bind (fd : Int) (addr : sockaddr_in)
  | listen (fd : Int) (backlog : Int)
  deriving DecidableEq, Repr

/-- Whether a call is a `listen`. -/
def Call.isListen : Call → Bool
  | .listen _ _ => true
  | _ => false

/-- Whether a call is a `bind`. -/
def Call.isBind : Call → Bool
  | .bind _ _ => true
  | _ => false

/-- A system call together with the value it returned. -/
abbrev Event := Call × Int

/-- An operating system: from a kernel state and a call, the return value and the next state. -/
abbrev OS (σ : Type) := σ → Call → Int × σ

/-- The world the code runs in: the kernel state and the trace of system calls issued so far,
oldest first. -/
structure World (σ : Type) where
  st : σ
  log : List Event
  deriving DecidableEq

/-- The calls issued between an earlier world and a later one. -/
def World.issued {σ : Type} (before after : World σ) : List Event :=
  after.log.drop before.log.length

/-- A trace without any `listen` or `bind` call. -/
def quiet (new : List Event) : Prop := ∀ e ∈ new, e.1.isListen = false ∧ e.1.isBind = false

/-- The later world extends the trace of the earlier one by calls that are neither `listen`
nor `bind`. -/
def quiet_ext {σ : Type} (w w2 : World σ) : Prop := ∃ new, w2.log = w.log ++ new ∧ quiet new

/-- Whether a call is a `close`. -/
def Call.isClose : Call → Bool
  | .close _ => true
  | _ => false

/-- The number of `close` calls in a trace. -/
def close_calls (log : List Event) : Nat := log.countP (fun e => e.1.isClose)

/-- Issue one system call: the OS answers, and the call is appended to the trace. -/
def syscall {σ : Type} (os : OS σ) (w : World σ) (c : Call) : Int × World σ :=
  let r := os w.st c
  (r.1, ⟨r.2, w.log ++ [(c, r.1)]⟩)

/-! ## `coro::net::socket` (src/net/socket.cpp) -/

/-- The class `socket`: its only data member is the handle `m_fd`, `-1` when it owns nothing. -/
structure socket where
  m_fd : Int
  deriving DecidableEq, Repr

/-- The accessor `socket::native_handle()`. -/
def socket.native_handle (s : socket) : Int := s.m_fd

/-- The function `socket::type_to_os`. -/
def socket.type_to_os : type_t → Except runtime_error Int
  | .udp => .ok SOCK_DGRAM
  | .tcp => .ok SOCK_STREAM
  | _ => .error ⟨"Unknown socket::type_t."⟩

/-- The method `socket::close`: returns the object after the call and the world. -/
def socket.close {σ : Type} (os : OS σ) (s : socket) (w : World σ) : socket × World σ :=
  if s.m_fd ≠ -1 then
    let r := syscall os w (.close s.m_fd)
    (⟨-1⟩, r.2)
  else
    (s, w)

/-- Modelled from the spec: the destructor `~socket()` of the absent header
`coro/net/socket.hpp`, which closes the handle the object still owns. -/
def socket.dtor {σ : Type} (os : OS σ) (s : socket) (w : World σ) : World σ :=
  (socket.close os s w).2

/-- The method `socket::blocking`: the boolean result, the object after the call, the world. -/
def socket.blocking {σ : Type} (os : OS σ) (s : socket) (block : blocking_t) (w : World σ) :
    Bool × socket × World σ :=
  if s.m_fd < 0 then
    (false, s, w)
  else
    let r := syscall os w (.fcntl_getfl s.m_fd)
    let flags := r.1
    if flags = -1 then
      (false, s, r.2)
    else
      let flags := if block = .yes then Int.land flags (Int.lnot O_NONBLOCK)
        else Int.lor flags O_NONBLOCK
      let r2 := syscall os r.2 (.fcntl_setfl s.m_fd flags)
      (decide (r2.1 = 0), s, r2.2)

/-- The `switch` of `socket::shutdown`, from the direction to the OS constant. -/
def socket.shutdown_how : poll_op → Int
  | .read => SHUT_RD
  | .write => SHUT_WR
  | .read_write => SHUT_RDWR

/-- The method `socket::shutdown`: the boolean result, the object after the call, the world. -/
def socket.shutdown {σ : Type} (os : OS σ) (s : socket) (how : poll_op) (w : World σ) :
    Bool × socket × World σ :=
  if s.m_fd ≠ -1 then
    let h := socket.shutdown_how how
    let r := syscall os w (.shutdown s.m_fd h)
    (decide (r.1 = 0), s, r.2)
  else
    (false, s, w)

/-- Addresses of `socket` objects. -/
abbrev Addr := Nat

/-- The `socket` objects in memory, by address. -/
abbrev Heap := Addr → socket

/-- The move assignment `socket::operator=(socket&& other)`, on the objects at the addresses
`this` and `other`. -/
def socket.move_assign (h : Heap) (this other : Addr) : Heap :=
  if other ≠ this then
    let old := (h other).m_fd
    let h1 := Function.update h other ⟨-1⟩
    Function.update h1 this ⟨old⟩
  else
    h

/-! ## The socket factory (src/net/socket.cpp) -/

/-- The function `make_socket`.  The call `socket::type_to_os` is an argument of `::socket`, so
it is evaluated, and may throw, before the system call is issued.  When an exception leaves the
function the local `s` is destroyed. -/
def make_socket {σ : Type} (os : OS σ) (opts : options) (w : World σ) :
    Except runtime_error socket × World σ :=
  match socket.type_to_os opts.type_ with
  | .error e => (.error e, w)
  | .ok ty =>
    let r := syscall os w (.socket opts.domain.to_int ty 0)
    let s : socket := ⟨r.1⟩
    if s.native_handle < 0 then
      (.error ⟨"Failed to create socket."⟩, socket.dtor os s r.2)
    else if opts.blocking = .no then
      let b := socket.blocking os s .no r.2
      if b.1 = false then
        (.error ⟨"Failed to set socket to non-blocking mode."⟩, socket.dtor os b.2.1 b.2.2)
      else
        (.ok b.2.1, b.2.2)
    else
      (.ok s, r.2)

/-- The bytes `htons(port)` stores in `sin_port`: high byte first. -/
def htons (port : Nat) : List Nat := [port / 256 % 256, port % 256]

/-- The option name `make_accept_socket` passes to `setsockopt` in the `__linux__` branch:
`SO_REUSEADDR | SO_REUSEPORT`. -/
def sock_opt_name : Int := Int.lor SO_REUSEADDR SO_REUSEPORT

/-- The function `make_accept_socket`, `__linux__` branch of the preprocessor conditional. -/
def make_accept_socket {σ : Type} (os : OS σ) (opts : options) (address : ip_address)
    (port : Nat) (backlog : Int) (w : World σ) : Except runtime_error socket × World σ :=
  match make_socket os opts w with
  | (.error e, w1) => (.error e, w1)
  | (.ok s, w1) =>
    let sock_opt : Int := 1
    let r := syscall os w1 (.setsockopt s.native_handle SOL_SOCKET sock_opt_name (.int sock_opt))
    if r.1 < 0 then
      (.error ⟨"Failed to setsockopt(SO_REUSEADDR | SO_REUSEPORT)"⟩, socket.dtor os s r.2)
    else
      let server : sockaddr_in := ⟨opts.domain.to_int, htons port, address.data.take 4⟩
      let rb := syscall os r.2 (.bind s.native_handle server)
      if rb.1 < 0 then
        (.error ⟨"Failed to bind."⟩, socket.dtor os s rb.2)
      else if opts.type_ = .tcp then
        let rl := syscall os rb.2 (.listen s.native_handle backlog)
        if rl.1 < 0 then
          (.error ⟨"Failed to listen."⟩, socket.dtor os s rl.2)
        else
          (.ok s, rl.2)
      else
        (.ok s, rb.2)

/-- The function `make_multicast_socket`. -/
def make_multicast_socket {σ : Type} (os : OS σ) (opts : options) (address : ip_address)
    (port : Nat) (multicast_address : ip_address) (w : World σ) :
    Except runtime_error socket × World σ :=
  match make_socket os opts w with
  | (.error e, w1) => (.error e, w1)
  | (.ok s, w1) =>
    let reuse : Int := 1
    let r := syscall os w1 (.setsockopt s.native_handle SOL_SOCKET SO_REUSEADDR (.int reuse))
    if r.1 < 0 then
      (.error ⟨"Failed to setsockopt(SO_REUSEADDR | SO_REUSEPORT)"⟩, socket.dtor os s r.2)
    else
      let server : sockaddr_in := ⟨opts.domain.to_int, htons port, address.data.take 4⟩
      let rb := syscall os r.2 (.bind s.native_handle server)
      if rb.1 < 0 then
        (.error ⟨"Failed to bind."⟩, socket.dtor os s rb.2)
      else
        let loop : Int := 1
        let rl := syscall os rb.2
          (.setsockopt s.native_handle IPPROTO_IP IP_MULTICAST_LOOP (.int loop))
        if rl.1 < 0 then
          (.error ⟨"Failed to setsockopt(IP_MULTICAST_LOOP)"⟩, socket.dtor os s rl.2)
        else
          let rm := syscall os rl.2
            (.setsockopt s.native_handle IPPROTO_IP IP_ADD_MEMBERSHIP
              (.ip_mreq multicast_address INADDR_ANY))
          if rm.1 < 0 then
            (.error ⟨"Failed to setsockopt(IP_ADD_MEMBERSHIP)"⟩, socket.dtor os s rm.2)
          else
            (.ok s, rm.2)

/-! ## `coro::net::udp::peer` (src/net/udp/peer.cpp) -/

namespace udp

/-- Modelled from the spec: `udp::peer::info`, the BindInfo (address, port) of the absent
header `coro/net/udp/peer.hpp`. -/
structure info where
  address : ip_address
  port : Nat
  deriving DecidableEq, Repr

/-- Modelled from the spec: the data members of `udp::peer`, declared in the absent header
`coro/net/udp/peer.hpp`: the scheduler reference, the Descriptor and the flag
"is locally bound".  The scheduler is an external collaborator of type `Sched`. -/
structure peer (Sched : Type) where
  m_io_scheduler : Sched
  m_socket : socket
  m_bound : Bool

/-- Modelled from the spec: the default member initialiser of `m_bound` in the absent header
`coro/net/udp/peer.hpp`; a constructor that does not mention `m_bound` leaves it at this value,
and the spec gives `is locally bound = false` for that constructor. -/
def peer.m_bound_default : Bool := false

/-- The constructor `peer::peer(scheduler, domain)`: the unbound / client mode. -/
def peer.client {σ Sched : Type} (os : OS σ) (scheduler : Sched) (domain : domain_t)
    (w : World σ) : Except runtime_error (peer Sched) × World σ :=
  match make_socket os ⟨domain, .udp, .no⟩ w with
  | (.error e, w1) => (.error e, w1)
  | (.ok s, w1) => (.ok ⟨scheduler, s, peer.m_bound_default⟩, w1)

/-- The constructor `peer::peer(scheduler, bind_info)`: the bound / receiver mode.  The call
passes three arguments to `make_accept_socket`; `backlog` is the default argument of its
declaration in the absent header `coro/net/socket.hpp`, taken as a parameter. -/
def peer.bound {σ Sched : Type} (os : OS σ) (backlog : Int) (scheduler : Sched)
    (bind_info : info) (w : World σ) : Except runtime_error (peer Sched) × World σ :=
  match make_accept_socket os ⟨bind_info.address.domain, .udp, .no⟩
      bind_info.address bind_info.port backlog w with
  | (.error e, w1) => (.error e, w1)
  | (.ok s, w1) => (.ok ⟨scheduler, s, true⟩, w1)

/-- The constructor `peer::peer(scheduler, bind_info, multicast_address)`: the multicast
receiver mode. -/
def peer.multicast {σ Sched : Type} (os : OS σ) (scheduler : Sched) (bind_info : info)
    (multicast_address : ip_address) (w : World σ) :
    Except runtime_error (peer Sched) × World σ :=
  match make_multicast_socket os ⟨bind_info.address.domain, .udp, .no⟩
      bind_info.address bind_info.port multicast_address w with
  | (.error e, w1) => (.error e, w1)
  | (.ok s, w1) => (.ok ⟨scheduler, s, true⟩, w1)

end udp

/-! ## A concrete POSIX-like kernel -/

/-- An open file description of the kernel: the file status flags (`F_GETFL` / `F_SETFL`), the
socket options set so far (level, name, value), the local address, the listen backlog and the
directions shut down. -/
structure Description where
  flags : Int
  sockopts : List (Int × Int × optval)
  bound : Option sockaddr_in
  listening : Option Int
  shut : List Int
  deriving DecidableEq, Repr

/-- The kernel state: the descriptor table of the process (open handle, index of its open file
description), the open file descriptions, and a script of injected failures: the head says
whether the next system call fails whatever its arguments (resource limits, address in use,
and so on); an empty script injects none. -/
structure Kernel where
  fds : List (Nat × Nat)
  descs : List Description
  faults : List Bool
  deriving DecidableEq, Repr

/-- The index of the open file description of a handle, `none` when the handle is not open. -/
def Kernel.desc_index (k : Kernel) (fd : Int) : Option Nat :=
  if fd < 0 then none else k.fds.lookup fd.toNat

/-- The open file description of a handle. -/
def Kernel.desc (k : Kernel) (fd : Int) : Option Description :=
  match k.desc_index fd with
  | none => none
  | some i => k.descs[i]?

/-- The file status flags of a handle, as stored by the kernel. -/
def Kernel.flags_of (k : Kernel) (fd : Int) : Option Int :=
  (k.desc fd).map Description.flags

/-- Whether the handle is non-blocking: the `O_NONBLOCK` bit of its file status flags. -/
def Kernel.nonblocking (k : Kernel) (fd : Int) : Option Bool :=
  (k.flags_of fd).map (fun f => Int.testBit f O_NONBLOCK_BIT)

/-- Whether the boolean socket option (level, name) has been enabled on the handle. -/
def Kernel.option_enabled (k : Kernel) (fd level name : Int) : Bool :=
  match k.desc fd with
  | none => false
  | some d => d.sockopts.any (fun o => o.1 = level ∧ o.2.1 = name ∧ o.2.2 = optval.int 1)

/-- The open handles of the process. -/
def Kernel.open_handles (k : Kernel) : List Nat := k.fds.map Prod.fst

/-- The lowest handle that is not open. -/
def Kernel.lowest_free (k : Kernel) : Nat :=
  ((List.range (k.fds.length + 1)).find? (fun n => !(k.open_handles.contains n))).getD
    k.fds.length

/-- Apply a change to the open file description of a handle: `-1` when the handle is not
open, `0` otherwise. -/
def Kernel.update_desc (k : Kernel) (fd : Int) (f : Description → Description) : Int × Kernel :=
  match k.desc_index fd with
  | none => (-1, k)
  | some i =>
    match k.descs[i]? with
    | none => (-1, k)
    | some d => (0, { k with descs := k.descs.set i (f d) })

/-- What a system call does when no failure is injected. -/
def Kernel.exec (k : Kernel) : Call → Int × Kernel
  | .socket _ _ _ =>
    let fd := k.lowest_free
    (fd, { k with fds := (fd, k.descs.length) :: k.fds,
                  descs := k.descs ++ [⟨O_RDWR, [], none, none, []⟩] })
  | .dup fd =>
    match k.desc_index fd with
    | none => (-1, k)
    | some i =>
      let fd2 := k.lowest_free
      (fd2, { k with fds := (fd2, i) :: k.fds })
  | .fcntl_getfl fd =>
    match k.flags_of fd with
    | none => (-1, k)
    | some f => (f, k)
  | .fcntl_setfl fd flags => k.update_desc fd (fun d => { d with flags := flags })
  | .shutdown fd how =>
    if how = SHUT_RD ∨ how = SHUT_WR ∨ how = SHUT_RDWR then
      k.update_desc fd (fun d => { d with shut := how :: d.shut })
    else (-1, k)
  | .close fd =>
    match k.desc_index fd with
    | none => (-1, k)
    | some _ => (0, { k with fds := k.fds.filter (fun e => e.1 ≠ fd.toNat) })
  | .setsockopt fd level optname val =>
    k.update_desc fd (fun d => { d with sockopts := (level, optname, val) :: d.sockopts })
  | .bind fd addr =>
    match k.desc fd with
    | none => (-1, k)
    | some d =>
      if d.bound.isSome then (-1, k)
      else k.update_desc fd (fun d => { d with bound := some addr })
  | .listen fd backlog => k.update_desc fd (fun d => { d with listening := some backlog })

/-- The concrete operating system: the next entry of the failure script decides whether the
call fails with `-1`; otherwise the call is executed. -/
def posix : OS Kernel := fun k c =>
  match k.faults with
  | true :: rest => (-1, { k with faults := rest })
  | false :: rest => Kernel.exec { k with faults := rest } c
  | [] => Kernel.exec k c

/-- A process with the three standard handles open on one terminal description. -/
def Kernel.boot : Kernel :=
  ⟨[(0, 0), (1, 0), (2, 0)], [⟨O_RDWR, [], none, none, []⟩], []⟩

end coro.net

/-! # Theorems -/

namespace coro.net

/-! ## Traces -/

theorem syscall_log {σ : Type} (os : OS σ) (w : World σ) (c : Call) :
    (syscall os w c).2.log = w.log ++ [(c, (syscall os w c).1)] := rfl

theorem issued_self {σ : Type} (w : World σ) : World.issued w w = [] := by
  simp [World.issued]

theorem issued_of_log {σ : Type} (w w2 : World σ) (new : List Event)
    (h : w2.log = w.log ++ new) : World.issued w w2 = new := by
  simp [World.issued, h]

theorem testBit_O_NONBLOCK (i : Nat) : Int.testBit O_NONBLOCK i = decide (11 = i) := by
  have h : O_NONBLOCK = ((2 ^ 11 : Nat) : Int) := by decide
  rw [h]
  show Nat.testBit (2 ^ 11) i = _
  exact Nat.testBit_two_pow

/-! ## `socket::type_to_os` -/

/-- C1: `socket::type_to_os` maps tcp to `SOCK_STREAM` and udp to `SOCK_DGRAM`, the two
constants differ, and every other transport value ends in the exception
`UnsupportedTransportKind` (an `Except.error`, never a returned value). -/
theorem type_to_os_spec :
    socket.type_to_os .tcp = .ok SOCK_STREAM ∧
    socket.type_to_os .udp = .ok SOCK_DGRAM ∧
    SOCK_STREAM ≠ SOCK_DGRAM ∧
    ∀ t : type_t, t ≠ .tcp → t ≠ .udp →
      socket.type_to_os t = .error UnsupportedTransportKind := by
  refine ⟨rfl, rfl, by decide, ?_⟩
  intro t h1 h2
  cases t with
  | udp => exact absurd rfl h2
  | tcp => exact absurd rfl h1
  | unknown raw => rfl

/-- A transport value that is neither tcp nor udp, `unknown 7`, ends in the exception. -/
theorem type_to_os_spec_witness :
    socket.type_to_os (.unknown 7) = .error UnsupportedTransportKind :=
  type_to_os_spec.2.2.2 (.unknown 7) (by decide) (by decide)

/-! ## `socket::close` -/

/-- C2: for every Descriptor and every world, closing twice gives the same Descriptor and the
same world (kernel state and trace of calls, hence the same number of `close` calls) as closing
once; the handle is `-1` after the first and after the second call; and closing a Descriptor
whose handle is already `-1` issues no call at all. -/
theorem close_idempotent {σ : Type} (os : OS σ) (d : socket) (w : World σ) :
    socket.close os (socket.close os d w).1 (socket.close os d w).2 = socket.close os d w ∧
    (socket.close os d w).1.m_fd = -1 ∧
    (socket.close os (socket.close os d w).1 (socket.close os d w).2).1.m_fd = -1 ∧
    close_calls (socket.close os (socket.close os d w).1 (socket.close os d w).2).2.log
      = close_calls (socket.close os d w).2.log ∧
    (d.m_fd = -1 → socket.close os d w = (d, w)) := by
  have h1 : (socket.close os d w).1.m_fd = -1 := by
    unfold socket.close
    split <;> simp_all
  have h2 : ∀ (e : socket) (v : World σ), e.m_fd = -1 → socket.close os e v = (e, v) := by
    intro e v he
    simp [socket.close, he]
  have h3 := h2 _ (socket.close os d w).2 h1
  refine ⟨h3, h1, ?_, ?_, h2 d w⟩
  · rw [h3]; exact h1
  · rw [h3]

/-- Closing a Descriptor whose handle is `-1` in the booted kernel changes nothing. -/
theorem close_idempotent_witness :
    socket.close posix ⟨-1⟩ ⟨Kernel.boot, []⟩ = (⟨-1⟩, ⟨Kernel.boot, []⟩) :=
  (close_idempotent posix ⟨-1⟩ ⟨Kernel.boot, []⟩).2.2.2.2 rfl

/-! ## Move assignment -/

/-- C3: for two distinct `socket` objects `a` and `b`, move-assigning `b` into `a` leaves `b`
with the handle `-1` and `a` with the handle `b` held, and a following `b.close()` changes
neither the object nor the world; move-assigning an object to itself changes nothing.  The
operation is a total function: it cannot fail. -/
theorem move_assign_spec {σ : Type} (os : OS σ) (h : Heap) (a b : Addr) (w : World σ) :
    (a ≠ b →
      (socket.move_assign h a b b).m_fd = -1 ∧
      (socket.move_assign h a b a).m_fd = (h b).m_fd ∧
      socket.close os (socket.move_assign h a b b) w = (socket.move_assign h a b b, w)) ∧
    socket.move_assign h a a = h := by
  constructor
  · intro hab
    have hba : b ≠ a := fun e => hab e.symm
    have hb : socket.move_assign h a b b = ⟨-1⟩ := by
      simp [socket.move_assign, hba, Function.update_noteq hba]
    have ha : socket.move_assign h a b a = ⟨(h b).m_fd⟩ := by
      simp [socket.move_assign, hba]
    refine ⟨by rw [hb], by rw [ha], ?_⟩
    rw [hb]
    simp [socket.close]
  · simp [socket.move_assign]

/-- Moving the object at address 1 (handle 4) into the object at address 0. -/
theorem move_assign_spec_witness :
    (socket.move_assign (fun n => ⟨n + 3⟩) 0 1 1).m_fd = -1 ∧
    (socket.move_assign (fun n => ⟨n + 3⟩) 0 1 0).m_fd = 4 ∧
    socket.close posix (socket.move_assign (fun n => ⟨n + 3⟩) 0 1 1) ⟨Kernel.boot, []⟩
      = (socket.move_assign (fun n => ⟨n + 3⟩) 0 1 1, ⟨Kernel.boot, []⟩) :=
  (move_assign_spec posix (fun n => ⟨n + 3⟩) 0 1 ⟨Kernel.boot, []⟩).1 (by decide)

/-! ## `socket::shutdown` -/

/-- C5, as the claim states it, fails: the handle `-2` is negative, and `shutdown(read)` on it
issues the OS call `shutdown(-2, SHUT_RD)`, so the world is not left unchanged. -/
theorem shutdown_negative_handle_counterexample :
    (⟨-2⟩ : socket).m_fd < 0 ∧
    (socket.shutdown posix ⟨-2⟩ .read ⟨Kernel.boot, []⟩).2.2.log
      = [(Call.shutdown (-2) SHUT_RD, -1)] ∧
    socket.shutdown posix ⟨-2⟩ .read ⟨Kernel.boot, []⟩ ≠ (false, ⟨-2⟩, ⟨Kernel.boot, []⟩) := by
  decide

/-- When the handle is not the sentinel `-1` (negative handles other than `-1` included),
`shutdown(direction)` issues exactly one OS call, `shutdown` on that handle with `SHUT_RD`,
`SHUT_WR` or `SHUT_RDWR` for read, write or read_write, returns whether that call returned 0,
and leaves the handle unchanged. -/
theorem shutdown_issues_call {σ : Type} (os : OS σ) (s : socket) (how : poll_op) (w : World σ)
    (h : s.m_fd ≠ -1) :
    ∃ hw r, (hw = SHUT_RD ∧ how = .read ∨ hw = SHUT_WR ∧ how = .write ∨
        hw = SHUT_RDWR ∧ how = .read_write) ∧
      World.issued w (socket.shutdown os s how w).2.2 = [(Call.shutdown s.m_fd hw, r)] ∧
      (socket.shutdown os s how w).1 = decide (r = 0) ∧
      (socket.shutdown os s how w).2.1 = s := by
  refine ⟨socket.shutdown_how how, (syscall os w (.shutdown s.m_fd (socket.shutdown_how how))).1,
    ?_, ?_, ?_, ?_⟩
  · cases how <;> simp [socket.shutdown_how]
  · apply issued_of_log
    simp [socket.shutdown, h, syscall_log]
  · simp [socket.shutdown, h]
  · simp [socket.shutdown, h]

/-- C5, amended: for every direction in read, write, read_write and every Descriptor whose
handle is the sentinel `-1`, `shutdown(direction)` returns false and issues no OS call, leaving
the handle and the world (kernel state and trace of calls) unchanged. -/
theorem shutdown_spec {σ : Type} (os : OS σ) (s : socket) (how : poll_op) (w : World σ)
    (h : s.m_fd = -1) :
    socket.shutdown os s how w = (false, s, w) ∧
    (socket.shutdown os s how w).1 = false ∧
    (socket.shutdown os s how w).2.1.m_fd = s.m_fd ∧
    World.issued w (socket.shutdown os s how w).2.2 = [] := by
  have hres : socket.shutdown os s how w = (false, s, w) := by
    simp [socket.shutdown, h]
  rw [hres]
  exact ⟨rfl, rfl, rfl, issued_self w⟩

/-- Shutting down the write direction of a Descriptor whose handle is `-1` issues no call. -/
theorem shutdown_spec_witness :
    socket.shutdown posix ⟨-1⟩ .write ⟨Kernel.boot, []⟩ = (false, ⟨-1⟩, ⟨Kernel.boot, []⟩) :=
  (shutdown_spec posix ⟨-1⟩ .write ⟨Kernel.boot, []⟩ rfl).1

/-! ## `socket::blocking` -/

theorem int_eq_of_testBit_eq {x y : Int} (h : ∀ i, Int.testBit x i = Int.testBit y i) :
    x = y := by
  have hlt : ∀ m n : Nat, m < 2 ^ (m + n) :=
    fun m n => lt_of_le_of_lt (Nat.le_add_right m n) (Nat.lt_two_pow _)
  have hlt2 : ∀ m n : Nat, n < 2 ^ (m + n) :=
    fun m n => lt_of_le_of_lt (Nat.le_add_left n m) (Nat.lt_two_pow _)
  cases x with
  | ofNat m =>
    cases y with
    | ofNat n =>
      have : m = n := Nat.eq_of_testBit_eq (fun i => h i)
      rw [this]
    | negSucc n =>
      exfalso
      have h1 := h (m + n)
      have e1 : Int.testBit (Int.ofNat m) (m + n) = Nat.testBit m (m + n) := rfl
      have e2 : Int.testBit (Int.negSucc n) (m + n) = !Nat.testBit n (m + n) := rfl
      rw [e1, e2, Nat.testBit_lt_two_pow (hlt m n), Nat.testBit_lt_two_pow (hlt2 m n)] at h1
      exact absurd h1 (by decide)
  | negSucc m =>
    cases y with
    | ofNat n =>
      exfalso
      have h1 := h (m + n)
      have e1 : Int.testBit (Int.ofNat n) (m + n) = Nat.testBit n (m + n) := rfl
      have e2 : Int.testBit (Int.negSucc m) (m + n) = !Nat.testBit m (m + n) := rfl
      rw [e1, e2, Nat.testBit_lt_two_pow (hlt m n), Nat.testBit_lt_two_pow (hlt2 m n)] at h1
      exact absurd h1 (by decide)
    | negSucc n =>
      have : m = n := Nat.eq_of_testBit_eq (fun i => by
        have h1 := h i
        have e1 : Int.testBit (Int.negSucc m) i = !Nat.testBit m i := rfl
        have e2 : Int.testBit (Int.negSucc n) i = !Nat.testBit n i := rfl
        rw [e1, e2] at h1
        cases hm : Nat.testBit m i <;> cases hn : Nat.testBit n i <;> simp_all)
      rw [this]

theorem flag_word_unique {rd fl fl2 : Int} {b : Bool}
    (h1 : ∀ i, i ≠ O_NONBLOCK_BIT → Int.testBit fl i = Int.testBit rd i)
    (h2 : Int.testBit fl O_NONBLOCK_BIT = b)
    (k1 : ∀ i, i ≠ O_NONBLOCK_BIT → Int.testBit fl2 i = Int.testBit rd i)
    (k2 : Int.testBit fl2 O_NONBLOCK_BIT = b) : fl2 = fl := by
  apply int_eq_of_testBit_eq
  intro i
  by_cases hi : i = O_NONBLOCK_BIT
  · rw [hi, h2, k2]
  · rw [h1 i hi, k1 i hi]

theorem blocking_valid_run {σ : Type} (os : OS σ) (s : socket) (block : blocking_t)
    (w : World σ) (hfd : ¬ s.m_fd < 0) (hrd : ¬ (syscall os w (.fcntl_getfl s.m_fd)).1 = -1) :
    ∃ fl : Int,
      socket.blocking os s block w
        = (decide ((syscall os (syscall os w (.fcntl_getfl s.m_fd)).2
            (.fcntl_setfl s.m_fd fl)).1 = 0), s,
           (syscall os (syscall os w (.fcntl_getfl s.m_fd)).2 (.fcntl_setfl s.m_fd fl)).2) ∧
      (∀ i, i ≠ O_NONBLOCK_BIT →
        Int.testBit fl i = Int.testBit (syscall os w (.fcntl_getfl s.m_fd)).1 i) ∧
      Int.testBit fl O_NONBLOCK_BIT = decide (block = .no) := by
  cases block with
  | yes =>
    refine ⟨Int.land (syscall os w (.fcntl_getfl s.m_fd)).1 (Int.lnot O_NONBLOCK), ?_, ?_, ?_⟩
    · simp [socket.blocking, hfd, hrd]
    · intro i hi
      have : ¬ (11 = i) := fun e => hi (by simp [O_NONBLOCK_BIT, ← e])
      simp [Int.testBit_land, Int.testBit_lnot, testBit_O_NONBLOCK, this]
    · simp [Int.testBit_land, Int.testBit_lnot, testBit_O_NONBLOCK, O_NONBLOCK_BIT]
  | no =>
    refine ⟨Int.lor (syscall os w (.fcntl_getfl s.m_fd)).1 O_NONBLOCK, ?_, ?_, ?_⟩
    · simp [socket.blocking, hfd, hrd]
    · intro i hi
      have : ¬ (11 = i) := fun e => hi (by simp [O_NONBLOCK_BIT, ← e])
      simp [Int.testBit_lor, testBit_O_NONBLOCK, this]
    · simp [Int.testBit_lor, testBit_O_NONBLOCK, O_NONBLOCK_BIT]

/-- C6: `blocking(mode)` leaves the handle of the Descriptor unchanged in all cases.  On a
negative handle it returns false and issues no call.  On a non-negative handle it reads the
descriptor flags; when the read returns `-1` it returns false, having issued the read alone;
otherwise it writes, on the same handle, the flag word that agrees with the word read in every
bit but the `O_NONBLOCK` bit, which is set exactly when non-blocking was requested (and so
cleared exactly when blocking was requested), and returns whether that write returned 0.  So
the result is true exactly when the handle is non-negative, the OS answers the read with a
value other than `-1` and answers the write of that word with 0. -/
theorem blocking_spec {σ : Type} (os : OS σ) (s : socket) (block : blocking_t) (w : World σ) :
    (socket.blocking os s block w).2.1 = s ∧
    (s.m_fd < 0 → socket.blocking os s block w = (false, s, w)) ∧
    (0 ≤ s.m_fd → (syscall os w (.fcntl_getfl s.m_fd)).1 = -1 →
      socket.blocking os s block w = (false, s, (syscall os w (.fcntl_getfl s.m_fd)).2)) ∧
    (0 ≤ s.m_fd → (syscall os w (.fcntl_getfl s.m_fd)).1 ≠ -1 →
      ∃ fl,
        (∀ i, i ≠ O_NONBLOCK_BIT →
          Int.testBit fl i = Int.testBit (syscall os w (.fcntl_getfl s.m_fd)).1 i) ∧
        Int.testBit fl O_NONBLOCK_BIT = decide (block = .no) ∧
        socket.blocking os s block w
          = (decide ((syscall os (syscall os w (.fcntl_getfl s.m_fd)).2
              (.fcntl_setfl s.m_fd fl)).1 = 0), s,
             (syscall os (syscall os w (.fcntl_getfl s.m_fd)).2 (.fcntl_setfl s.m_fd fl)).2)) ∧
    ((socket.blocking os s block w).1 = true ↔
      0 ≤ s.m_fd ∧ (syscall os w (.fcntl_getfl s.m_fd)).1 ≠ -1 ∧
      ∃ fl,
        (∀ i, i ≠ O_NONBLOCK_BIT →
          Int.testBit fl i = Int.testBit (syscall os w (.fcntl_getfl s.m_fd)).1 i) ∧
        Int.testBit fl O_NONBLOCK_BIT = decide (block = .no) ∧
        (syscall os (syscall os w (.fcntl_getfl s.m_fd)).2 (.fcntl_setfl s.m_fd fl)).1 = 0) ∧
    ((socket.blocking os s block w).1 = true ↔
      0 ≤ s.m_fd ∧ (syscall os w (.fcntl_getfl s.m_fd)).1 ≠ -1 ∧
      ∃ fl, (Call.fcntl_setfl s.m_fd fl, 0) ∈ World.issued w (socket.blocking os s block w).2.2) ∧
    (∀ fd fl r, (Call.fcntl_setfl fd fl, r) ∈ World.issued w (socket.blocking os s block w).2.2 →
      fd = s.m_fd ∧
      (∀ i, i ≠ O_NONBLOCK_BIT →
        Int.testBit fl i = Int.testBit (syscall os w (.fcntl_getfl s.m_fd)).1 i) ∧
      Int.testBit fl O_NONBLOCK_BIT = decide (block = .no)) ∧
    (World.issued w (socket.blocking os s block w).2.2 = [] ∨
      World.issued w (socket.blocking os s block w).2.2
        = [(Call.fcntl_getfl s.m_fd, (syscall os w (.fcntl_getfl s.m_fd)).1)] ∨
      ∃ fl r, World.issued w (socket.blocking os s block w).2.2
        = [(Call.fcntl_getfl s.m_fd, (syscall os w (.fcntl_getfl s.m_fd)).1),
           (Call.fcntl_setfl s.m_fd fl, r)]) := by
  by_cases hfd : s.m_fd < 0
  · have hres : socket.blocking os s block w = (false, s, w) := by
      simp [socket.blocking, hfd]
    have hnot : ¬ (0 ≤ s.m_fd) := by omega
    simp [hres, issued_self, hnot]
  · have hge : 0 ≤ s.m_fd := by omega
    by_cases hrd : (syscall os w (.fcntl_getfl s.m_fd)).1 = -1
    · have hres : socket.blocking os s block w
          = (false, s, (syscall os w (.fcntl_getfl s.m_fd)).2) := by
        simp [socket.blocking, hfd, hrd]
      have hiss : World.issued w (syscall os w (.fcntl_getfl s.m_fd)).2
          = [(Call.fcntl_getfl s.m_fd, (syscall os w (.fcntl_getfl s.m_fd)).1)] :=
        issued_of_log _ _ _ (syscall_log os w _)
      simp [hres, hiss, hrd, hfd]
    · obtain ⟨fl, hfl, hbits, hbit⟩ := blocking_valid_run os s block w hfd hrd
      have hiss : World.issued w (socket.blocking os s block w).2.2
          = [(Call.fcntl_getfl s.m_fd, (syscall os w (.fcntl_getfl s.m_fd)).1),
             (Call.fcntl_setfl s.m_fd fl,
               (syscall os (syscall os w (.fcntl_getfl s.m_fd)).2
                 (.fcntl_setfl s.m_fd fl)).1)] := by
        apply issued_of_log
        rw [hfl]
        simp [syscall_log]
      refine ⟨by rw [hfl], fun h => absurd h hfd, fun _ h => absurd h hrd,
        fun _ _ => ⟨fl, hbits, hbit, hfl⟩, ?_, ?_, ?_, ?_⟩
      · rw [hfl]
        constructor
        · intro h
          refine ⟨hge, hrd, fl, hbits, hbit, ?_⟩
          simpa using h
        · rintro ⟨-, -, fl2, k1, k2, h⟩
          have : fl2 = fl := flag_word_unique hbits hbit k1 k2
          subst this
          simpa using h
      · rw [hiss, hfl]
        constructor
        · intro h
          refine ⟨hge, hrd, fl, ?_⟩
          simp at h
          simp [h]
        · rintro ⟨-, -, fl2, h⟩
          simp at h
          simp [h.2]
      · rw [hiss]
        intro fd fl2 r h
        simp at h
        obtain ⟨⟨h1, h2⟩, -⟩ := h
        subst h2
        exact ⟨h1, hbits, hbit⟩
      · rw [hiss]
        exact Or.inr (Or.inr ⟨fl, _, rfl⟩)

/-- On handle 0 of the booted kernel (flags `O_RDWR`) the read and the write of
`O_RDWR | O_NONBLOCK` succeed and `blocking(non-blocking)` returns true; on the handle `-1` it
returns false and issues no call. -/
theorem blocking_spec_witness :
    (socket.blocking posix ⟨0⟩ .no ⟨Kernel.boot, []⟩).1 = true ∧
    socket.blocking posix ⟨-1⟩ .no ⟨Kernel.boot, []⟩ = (false, ⟨-1⟩, ⟨Kernel.boot, []⟩) :=
  ⟨(blocking_spec posix ⟨0⟩ .no ⟨Kernel.boot, []⟩).2.2.2.2.1.mpr
      ⟨by decide, by decide, Int.lor O_RDWR O_NONBLOCK,
        fun i hi => by
          have hne : ¬ (11 = i) := fun e => hi (by simp [O_NONBLOCK_BIT, ← e])
          show Int.testBit (Int.lor O_RDWR O_NONBLOCK) i = Int.testBit O_RDWR i
          simp [Int.testBit_lor, testBit_O_NONBLOCK, hne],
        by
          show Int.testBit (Int.lor O_RDWR O_NONBLOCK) O_NONBLOCK_BIT = true
          simp [Int.testBit_lor, testBit_O_NONBLOCK, O_NONBLOCK_BIT],
        by decide⟩,
   (blocking_spec posix ⟨-1⟩ .no ⟨Kernel.boot, []⟩).2.1 (by decide)⟩

/-! ## `make_socket` and `make_accept_socket` -/

theorem quiet_ext_refl {σ : Type} (w : World σ) : quiet_ext w w :=
  ⟨[], by simp, by simp [quiet]⟩

theorem quiet_ext_trans {σ : Type} {w1 w2 w3 : World σ} (h1 : quiet_ext w1 w2)
    (h2 : quiet_ext w2 w3) : quiet_ext w1 w3 := by
  obtain ⟨n1, e1, q1⟩ := h1
  obtain ⟨n2, e2, q2⟩ := h2
  refine ⟨n1 ++ n2, by rw [e2, e1, List.append_assoc], ?_⟩
  intro e he
  rcases List.mem_append.1 he with h | h
  · exact q1 e h
  · exact q2 e h

theorem quiet_ext_syscall {σ : Type} (os : OS σ) (w : World σ) (c : Call)
    (h1 : c.isListen = false) (h2 : c.isBind = false) : quiet_ext w (syscall os w c).2 :=
  ⟨[(c, (syscall os w c).1)], rfl, by simp [quiet, h1, h2]⟩

theorem close_trace {σ : Type} (os : OS σ) (s : socket) (w : World σ) :
    quiet_ext w (socket.close os s w).2 := by
  by_cases h : s.m_fd = -1
  · simp only [socket.close, h, ne_eq, not_true_eq_false, if_false]
    exact quiet_ext_refl w
  · simp only [socket.close, h, ne_eq, not_false_eq_true, if_true]
    exact quiet_ext_syscall os w _ rfl rfl

theorem dtor_trace {σ : Type} (os : OS σ) (s : socket) (w : World σ) :
    quiet_ext w (socket.dtor os s w) :=
  close_trace os s w

theorem blocking_trace {σ : Type} (os : OS σ) (s : socket) (b : blocking_t) (w : World σ) :
    quiet_ext w (socket.blocking os s b w).2.2 := by
  by_cases hfd : s.m_fd < 0
  · simp only [socket.blocking, hfd, if_true]
    exact quiet_ext_refl w
  · by_cases hrd : (syscall os w (.fcntl_getfl s.m_fd)).1 = -1
    · simp only [socket.blocking, hfd, hrd, if_true, if_false]
      exact quiet_ext_syscall os w (.fcntl_getfl s.m_fd) rfl rfl
    · simp only [socket.blocking, hfd, hrd, if_false]
      exact quiet_ext_trans (quiet_ext_syscall os w (.fcntl_getfl s.m_fd) rfl rfl)
        (quiet_ext_syscall os _ (.fcntl_setfl _ _) rfl rfl)

theorem make_socket_trace {σ : Type} (os : OS σ) (opts : options) (w : World σ) :
    quiet_ext w (make_socket os opts w).2 ∧
      ∀ e, (make_socket os opts w).1 = .error e →
        (e = UnsupportedTransportKind ∧ opts.type_ ≠ .udp ∧ opts.type_ ≠ .tcp) ∨
        e = SocketCreationFailed ∨ e = NonBlockingConfigurationFailed := by
  rcases hty : socket.type_to_os opts.type_ with e | ty
  · have hk : opts.type_ ≠ .udp ∧ opts.type_ ≠ .tcp ∧ e = UnsupportedTransportKind := by
      cases hk : opts.type_ <;> simp_all [socket.type_to_os, UnsupportedTransportKind]
    simp only [make_socket, hty]
    refine ⟨quiet_ext_refl w, ?_⟩
    intro e2 h2
    simp only [Except.error.injEq] at h2
    exact Or.inl ⟨by rw [← h2]; exact hk.2.2, hk.1, hk.2.1⟩
  · have h1 := quiet_ext_syscall os w (.socket opts.domain.to_int ty 0) rfl rfl
    by_cases hfd : (syscall os w (.socket opts.domain.to_int ty 0)).1 < 0
    · simp only [make_socket, hty, socket.native_handle, hfd, if_true]
      refine ⟨quiet_ext_trans h1 (dtor_trace os _ _), ?_⟩
      intro e h
      simp only [Except.error.injEq] at h
      exact Or.inr (Or.inl h.symm)
    · by_cases hb : opts.blocking = .no
      · have h2 := blocking_trace os ⟨(syscall os w (.socket opts.domain.to_int ty 0)).1⟩ .no
          (syscall os w (.socket opts.domain.to_int ty 0)).2
        by_cases hr : (socket.blocking os ⟨(syscall os w (.socket opts.domain.to_int ty 0)).1⟩
            .no (syscall os w (.socket opts.domain.to_int ty 0)).2).1 = false
        · simp only [make_socket, hty, socket.native_handle, hfd, hb, hr, if_true, if_false]
          refine ⟨quiet_ext_trans h1 (quiet_ext_trans h2 (dtor_trace os _ _)), ?_⟩
          intro e h
          simp only [Except.error.injEq] at h
          exact Or.inr (Or.inr h.symm)
        · simp only [make_socket, hty, socket.native_handle, hfd, hb, hr, if_true, if_false]
          exact ⟨quiet_ext_trans h1 h2, fun e h => by simp at h⟩
      · simp only [make_socket, hty, socket.native_handle, hfd, hb, if_false]
        exact ⟨h1, fun e h => by simp at h⟩

theorem quiet_snoc {l : List Event} (h : quiet l) (c : Call) (r : Int)
    (h1 : c.isListen = false) (h2 : c.isBind = false) : quiet (l ++ [(c, r)]) := by
  intro e he
  rcases List.mem_append.1 he with h3 | h3
  · exact h e h3
  · simp only [List.mem_singleton] at h3
    subst h3
    exact ⟨h1, h2⟩

theorem make_accept_socket_shape {σ : Type} (os : OS σ) (opts : options) (address : ip_address)
    (port : Nat) (backlog : Int) (w : World σ) :
    ∃ pre post : List Event, quiet pre ∧ quiet post ∧
      (((make_accept_socket os opts address port backlog w).2.log = w.log ++ pre ++ post ∧
          ∃ e, (make_accept_socket os opts address port backlog w).1 = .error e ∧
            ((e = UnsupportedTransportKind ∧ opts.type_ ≠ .udp ∧ opts.type_ ≠ .tcp) ∨
              e = SocketCreationFailed ∨ e = NonBlockingConfigurationFailed ∨
              e = SocketOptionFailed)) ∨
        (∃ fd rb, rb < 0 ∧
          (make_accept_socket os opts address port backlog w).2.log
            = w.log ++ pre ++ [(Call.bind fd ⟨opts.domain.to_int, htons port, address.data.take 4⟩,
                rb)] ++ post ∧
          (make_accept_socket os opts address port backlog w).1 = .error BindFailed) ∨
        (opts.type_ ≠ .tcp ∧ ∃ fd rb, 0 ≤ rb ∧
          (make_accept_socket os opts address port backlog w).2.log
            = w.log ++ pre ++ [(Call.bind fd ⟨opts.domain.to_int, htons port, address.data.take 4⟩,
                rb)] ++ post ∧ post = [] ∧
          (make_accept_socket os opts address port backlog w).1 = .ok ⟨fd⟩) ∨
        (opts.type_ = .tcp ∧ ∃ fd rb rl, 0 ≤ rb ∧
          (make_accept_socket os opts address port backlog w).2.log
            = w.log ++ pre ++ [(Call.bind fd ⟨opts.domain.to_int, htons port, address.data.take 4⟩,
                rb), (Call.listen fd backlog, rl)] ++ post ∧
          (make_accept_socket os opts address port backlog w).1
            = if rl < 0 then .error ListenFailed else .ok ⟨fd⟩)) := by
  obtain ⟨hq, herr⟩ := make_socket_trace os opts w
  rcases hms : make_socket os opts w with ⟨(e | s), w1⟩
  · rw [hms] at hq herr
    obtain ⟨n0, hn0, q0⟩ := hq
    refine ⟨n0, [], q0, by simp [quiet], Or.inl ?_⟩
    simp only [make_accept_socket, hms]
    refine ⟨by simpa using hn0, e, rfl, ?_⟩
    rcases herr e rfl with h | h | h
    · exact Or.inl h
    · exact Or.inr (Or.inl h)
    · exact Or.inr (Or.inr (Or.inl h))
  · rw [hms] at hq
    obtain ⟨n0, hn0, q0⟩ := hq
    simp only at hn0
    have qpre : quiet (n0 ++ [(Call.setsockopt s.native_handle SOL_SOCKET sock_opt_name (.int 1),
        (syscall os w1 (.setsockopt s.native_handle SOL_SOCKET sock_opt_name (.int 1))).1)]) :=
      quiet_snoc q0 _ _ rfl rfl
    by_cases hr : (syscall os w1
        (.setsockopt s.native_handle SOL_SOCKET sock_opt_name (.int 1))).1 < 0
    · obtain ⟨n, hn, q⟩ := dtor_trace os s (syscall os w1
        (.setsockopt s.native_handle SOL_SOCKET sock_opt_name (.int 1))).2
      refine ⟨_, n, qpre, q, Or.inl ?_⟩
      simp only [make_accept_socket, hms, hr, if_true]
      refine ⟨?_, _, rfl, Or.inr (Or.inr (Or.inr rfl))⟩
      rw [hn, syscall_log, hn0]
      simp
    · by_cases hb : (syscall os (syscall os w1
          (.setsockopt s.native_handle SOL_SOCKET sock_opt_name (.int 1))).2
          (.bind s.native_handle ⟨opts.domain.to_int, htons port, address.data.take 4⟩)).1 < 0
      · obtain ⟨n, hn, q⟩ := dtor_trace os s (syscall os (syscall os w1
          (.setsockopt s.native_handle SOL_SOCKET sock_opt_name (.int 1))).2
          (.bind s.native_handle ⟨opts.domain.to_int, htons port, address.data.take 4⟩)).2
        refine ⟨_, n, qpre, q, Or.inr (Or.inl ⟨s.native_handle,
          (syscall os (syscall os w1 (.setsockopt s.native_handle SOL_SOCKET sock_opt_name (.int
              1))).2 (.bind s.native_handle (⟨opts.domain.to_int, htons port, address.data.take 4⟩
              : sockaddr_in))).1, hb, ?_, ?_⟩)⟩
        · simp only [make_accept_socket, hms, hr, hb, if_true, if_false]
          rw [hn, syscall_log, syscall_log, hn0]
          simp
        · simp only [make_accept_socket, hms, hr, hb, if_true, if_false]
          rfl
      · by_cases ht : opts.type_ = .tcp
        · by_cases hl : (syscall os (syscall os (syscall os w1
              (.setsockopt s.native_handle SOL_SOCKET sock_opt_name (.int 1))).2
              (.bind s.native_handle ⟨opts.domain.to_int, htons port, address.data.take 4⟩)).2
              (.listen s.native_handle backlog)).1 < 0
          · obtain ⟨n, hn, q⟩ := dtor_trace os s (syscall os (syscall os (syscall os w1
              (.setsockopt s.native_handle SOL_SOCKET sock_opt_name (.int 1))).2
              (.bind s.native_handle ⟨opts.domain.to_int, htons port, address.data.take 4⟩)).2
              (.listen s.native_handle backlog)).2
            refine ⟨_, n, qpre, q, Or.inr (Or.inr (Or.inr ⟨ht, s.native_handle,
              (syscall os (syscall os w1 (.setsockopt s.native_handle SOL_SOCKET sock_opt_name
                  (.int 1))).2 (.bind s.native_handle (⟨opts.domain.to_int, htons port,
                  address.data.take 4⟩ : sockaddr_in))).1,
              (syscall os (syscall os (syscall os w1 (.setsockopt s.native_handle SOL_SOCKET
                  sock_opt_name (.int 1))).2 (.bind s.native_handle (⟨opts.domain.to_int, htons
                  port, address.data.take 4⟩ : sockaddr_in))).2 (.listen s.native_handle
                  backlog)).1,
              not_lt.1 hb, ?_, ?_⟩))⟩
            · simp only [make_accept_socket, hms, hr, hb, hl, ht, if_true, if_false]
              rw [hn, syscall_log, syscall_log, syscall_log, hn0]
              simp
            · simp only [make_accept_socket, hms, hr, hb, hl, ht, if_true, if_false]
              rfl
          · refine ⟨_, [], qpre, by simp [quiet], Or.inr (Or.inr (Or.inr ⟨ht, s.native_handle,
              (syscall os (syscall os w1 (.setsockopt s.native_handle SOL_SOCKET sock_opt_name
                  (.int 1))).2 (.bind s.native_handle (⟨opts.domain.to_int, htons port,
                  address.data.take 4⟩ : sockaddr_in))).1,
              (syscall os (syscall os (syscall os w1 (.setsockopt s.native_handle SOL_SOCKET
                  sock_opt_name (.int 1))).2 (.bind s.native_handle (⟨opts.domain.to_int, htons
                  port, address.data.take 4⟩ : sockaddr_in))).2 (.listen s.native_handle
                  backlog)).1,
              not_lt.1 hb, ?_, ?_⟩))⟩
            · simp only [make_accept_socket, hms, hr, hb, hl, ht, if_true, if_false]
              rw [syscall_log, syscall_log, syscall_log, hn0]
              simp
            · simp only [make_accept_socket, hms, hr, hb, hl, ht, if_true, if_false]
              rfl
        · refine ⟨_, [], qpre, by simp [quiet], Or.inr (Or.inr (Or.inl ⟨ht, s.native_handle,
            (syscall os (syscall os w1 (.setsockopt s.native_handle SOL_SOCKET sock_opt_name (.int
                1))).2 (.bind s.native_handle (⟨opts.domain.to_int, htons port, address.data.take
                4⟩ : sockaddr_in))).1,
            not_lt.1 hb, ?_, rfl, ?_⟩))⟩
          · simp only [make_accept_socket, hms, hr, hb, ht, if_true, if_false]
            rw [syscall_log, syscall_log, hn0]
            simp
          · simp only [make_accept_socket, hms, hr, hb, ht, if_true, if_false]
            rfl

theorem error_kinds_ne_listen :
    UnsupportedTransportKind ≠ ListenFailed ∧ SocketCreationFailed ≠ ListenFailed ∧
    NonBlockingConfigurationFailed ≠ ListenFailed ∧ SocketOptionFailed ≠ ListenFailed ∧
    BindFailed ≠ ListenFailed := by
  decide

theorem make_accept_socket_ok_cases {σ : Type} (os : OS σ) (opts : options)
    (address : ip_address) (port : Nat) (backlog : Int) (w w1 : World σ) (s : socket)
    (hms : make_socket os opts w = (.ok s, w1)) :
    ((syscall os w1 (.setsockopt s.m_fd SOL_SOCKET sock_opt_name (.int 1))).1 < 0 →
      make_accept_socket os opts address port backlog w
        = (.error SocketOptionFailed, socket.dtor os s (syscall os w1 (.setsockopt s.m_fd
            SOL_SOCKET sock_opt_name (.int 1))).2)) ∧
    (0 ≤ (syscall os w1 (.setsockopt s.m_fd SOL_SOCKET sock_opt_name (.int 1))).1 →
      (syscall os (syscall os w1 (.setsockopt s.m_fd SOL_SOCKET sock_opt_name (.int 1))).2 (.bind
          s.m_fd (⟨opts.domain.to_int, htons port, address.data.take 4⟩ : sockaddr_in))).1 < 0 →
      make_accept_socket os opts address port backlog w
        = (.error BindFailed, socket.dtor os s (syscall os (syscall os w1 (.setsockopt s.m_fd
            SOL_SOCKET sock_opt_name (.int 1))).2 (.bind s.m_fd (⟨opts.domain.to_int, htons port,
            address.data.take 4⟩ : sockaddr_in))).2)) ∧
    (0 ≤ (syscall os w1 (.setsockopt s.m_fd SOL_SOCKET sock_opt_name (.int 1))).1 →
      0 ≤ (syscall os (syscall os w1 (.setsockopt s.m_fd SOL_SOCKET sock_opt_name (.int 1))).2
          (.bind s.m_fd (⟨opts.domain.to_int, htons port, address.data.take 4⟩ : sockaddr_in))).1 →
      opts.type_ = .udp →
      make_accept_socket os opts address port backlog w = (.ok s, (syscall os (syscall os w1
          (.setsockopt s.m_fd SOL_SOCKET sock_opt_name (.int 1))).2 (.bind s.m_fd
          (⟨opts.domain.to_int, htons port, address.data.take 4⟩ : sockaddr_in))).2)) ∧
    (0 ≤ (syscall os w1 (.setsockopt s.m_fd SOL_SOCKET sock_opt_name (.int 1))).1 →
      0 ≤ (syscall os (syscall os w1 (.setsockopt s.m_fd SOL_SOCKET sock_opt_name (.int 1))).2
          (.bind s.m_fd (⟨opts.domain.to_int, htons port, address.data.take 4⟩ : sockaddr_in))).1 →
      opts.type_ = .tcp →
      (syscall os (syscall os (syscall os w1 (.setsockopt s.m_fd SOL_SOCKET sock_opt_name (.int
          1))).2 (.bind s.m_fd (⟨opts.domain.to_int, htons port, address.data.take 4⟩ :
          sockaddr_in))).2 (.listen s.m_fd backlog)).1 < 0 →
      make_accept_socket os opts address port backlog w
        = (.error ListenFailed, socket.dtor os s (syscall os (syscall os (syscall os w1
            (.setsockopt s.m_fd SOL_SOCKET sock_opt_name (.int 1))).2 (.bind s.m_fd
            (⟨opts.domain.to_int, htons port, address.data.take 4⟩ : sockaddr_in))).2 (.listen
            s.m_fd backlog)).2)) ∧
    (0 ≤ (syscall os w1 (.setsockopt s.m_fd SOL_SOCKET sock_opt_name (.int 1))).1 →
      0 ≤ (syscall os (syscall os w1 (.setsockopt s.m_fd SOL_SOCKET sock_opt_name (.int 1))).2
          (.bind s.m_fd (⟨opts.domain.to_int, htons port, address.data.take 4⟩ : sockaddr_in))).1 →
      opts.type_ = .tcp →
      0 ≤ (syscall os (syscall os (syscall os w1 (.setsockopt s.m_fd SOL_SOCKET sock_opt_name (.int
          1))).2 (.bind s.m_fd (⟨opts.domain.to_int, htons port, address.data.take 4⟩ :
          sockaddr_in))).2 (.listen s.m_fd backlog)).1 →
      make_accept_socket os opts address port backlog w = (.ok s, (syscall os (syscall os (syscall
          os w1 (.setsockopt s.m_fd SOL_SOCKET sock_opt_name (.int 1))).2 (.bind s.m_fd
          (⟨opts.domain.to_int, htons port, address.data.take 4⟩ : sockaddr_in))).2 (.listen s.m_fd
          backlog)).2)) := by
  refine ⟨?_, ?_, ?_, ?_, ?_⟩
  · intro h1
    simp only [make_accept_socket, hms, socket.native_handle, h1, if_true]
    rfl
  · intro h1 h2
    simp only [make_accept_socket, hms, socket.native_handle, not_lt.2 h1, h2, if_true,
      if_false]
    rfl
  · intro h1 h2 ht
    simp only [make_accept_socket, hms, socket.native_handle, not_lt.2 h1, not_lt.2 h2, ht,
      reduceCtorEq, if_false]
  · intro h1 h2 ht h3
    simp only [make_accept_socket, hms, socket.native_handle, not_lt.2 h1, not_lt.2 h2, ht, h3,
      if_true, if_false]
    rfl
  · intro h1 h2 ht h3
    simp only [make_accept_socket, hms, socket.native_handle, not_lt.2 h1, not_lt.2 h2, ht,
      not_lt.2 h3, if_true, if_false]

theorem make_accept_socket_error_case {σ : Type} (os : OS σ) (opts : options)
    (address : ip_address) (port : Nat) (backlog : Int) (w : World σ) (e : runtime_error)
    (hms : (make_socket os opts w).1 = .error e) :
    make_accept_socket os opts address port backlog w = (.error e, (make_socket os opts w).2) := by
  rcases h : make_socket os opts w with ⟨r, w1⟩
  rw [h] at hms
  simp only at hms
  subst hms
  simp only [make_accept_socket, h]

theorem make_accept_socket_udp_trace {σ : Type} (os : OS σ) (opts : options)
    (address : ip_address) (port : Nat) (backlog : Int) (w : World σ) :
    opts.type_ = .udp →
      (∀ e ∈ World.issued w (make_accept_socket os opts address port backlog w).2,
        e.1.isListen = false) ∧
      (make_accept_socket os opts address port backlog w).1 ≠ .error ListenFailed ∧
      ((∃ fd pre rb, (make_accept_socket os opts address port backlog w).1 = .ok ⟨fd⟩ ∧
          World.issued w (make_accept_socket os opts address port backlog w).2
            = pre ++ [(Call.bind fd
                (⟨opts.domain.to_int, htons port, address.data.take 4⟩ : sockaddr_in), rb)] ∧
          0 ≤ rb) ∨
        (make_accept_socket os opts address port backlog w).1 = .error SocketCreationFailed ∨
        (make_accept_socket os opts address port backlog w).1
          = .error NonBlockingConfigurationFailed ∨
        (make_accept_socket os opts address port backlog w).1 = .error SocketOptionFailed ∨
        (make_accept_socket os opts address port backlog w).1 = .error BindFailed) := by
  obtain ⟨pre, post, qpre, qpost, h⟩ :=
    make_accept_socket_shape os opts address port backlog w
  obtain ⟨n1, n2, n3, n4, n5⟩ := error_kinds_ne_listen
  have qall : ∀ e ∈ pre ++ post, e.1.isListen = false ∧ e.1.isBind = false := by
    intro e he
    rcases List.mem_append.1 he with h1 | h1
    · exact qpre e h1
    · exact qpost e h1
  have nb : ∀ e : Event, e.1.isBind = false → (e.1.isBind = true → e.2 < 0) :=
    fun e h1 h2 => by rw [h1] at h2; exact absurd h2 (by decide)
  intro hu
  rcases h with ⟨hlog, e, he, hk⟩ | ⟨fd, rb, hrb, hlog, he⟩ |
    ⟨hnt, fd, rb, hrb, hlog, hp, he⟩ | ⟨htcp, fd, rb, rl, hrb, hlog, he⟩
  · have hev := issued_of_log w _ (pre ++ post) (by rw [hlog, List.append_assoc])
    rw [hev, he]
    refine ⟨fun e2 h2 => (qall e2 h2).1, ?_, ?_⟩
    · intro hc
      simp only [Except.error.injEq] at hc
      rcases hk with ⟨h, -, -⟩ | h | h | h <;> rw [h] at hc
      · exact n1 hc
      · exact n2 hc
      · exact n3 hc
      · exact n4 hc
    · rcases hk with ⟨-, h, -⟩ | h | h | h
      · exact absurd hu h
      · exact Or.inr (Or.inl (by rw [h]))
      · exact Or.inr (Or.inr (Or.inl (by rw [h])))
      · exact Or.inr (Or.inr (Or.inr (Or.inl (by rw [h]))))
  · have hev := issued_of_log w _ (pre ++ [(Call.bind fd (⟨opts.domain.to_int, htons port,
      address.data.take 4⟩ : sockaddr_in), rb)] ++ post) (by
      rw [hlog]; simp)
    rw [hev, he]
    refine ⟨?_, ?_, Or.inr (Or.inr (Or.inr (Or.inr rfl)))⟩
    · intro e2 h2
      simp only [List.mem_append, List.mem_singleton] at h2
      rcases h2 with (h2 | h2) | h2
      · exact (qpre e2 h2).1
      · subst h2; rfl
      · exact (qpost e2 h2).1
    · intro hc
      simp only [Except.error.injEq] at hc
      exact n5 hc
  · subst hp
    have hev := issued_of_log w _ (pre ++ [(Call.bind fd (⟨opts.domain.to_int, htons port,
        address.data.take 4⟩ : sockaddr_in), rb)]) (by
      rw [hlog]; simp)
    rw [hev, he]
    refine ⟨?_, ?_, Or.inl ⟨fd, pre, rb, rfl, rfl, hrb⟩⟩
    · intro e2 h2
      simp only [List.mem_append, List.mem_singleton] at h2
      rcases h2 with h2 | h2
      · exact (qpre e2 h2).1
      · subst h2; rfl
    · intro hc
      cases hc
  · rw [htcp] at hu
    cases hu

theorem make_accept_socket_tcp_trace {σ : Type} (os : OS σ) (opts : options)
    (address : ip_address) (port : Nat) (backlog : Int) (w : World σ) :
    opts.type_ = .tcp →
      ((∀ e ∈ World.issued w (make_accept_socket os opts address port backlog w).2,
          e.1.isListen = false ∧ (e.1.isBind = true → e.2 < 0)) ∧
        ∃ e, (make_accept_socket os opts address port backlog w).1 = .error e ∧ e ≠ ListenFailed) ∨
      (∃ pre post fd rb rl,
        World.issued w (make_accept_socket os opts address port backlog w).2
          = pre ++ [(Call.bind fd
                (⟨opts.domain.to_int, htons port, address.data.take 4⟩ : sockaddr_in), rb),
              (Call.listen fd backlog, rl)] ++ post ∧
        0 ≤ rb ∧ (∀ e ∈ pre ++ post, e.1.isListen = false) ∧
        ((make_accept_socket os opts address port backlog w).1 = .error ListenFailed ↔ rl < 0) ∧
        (0 ≤ rl → (make_accept_socket os opts address port backlog w).1 = .ok ⟨fd⟩)) := by
  obtain ⟨pre, post, qpre, qpost, h⟩ :=
    make_accept_socket_shape os opts address port backlog w
  obtain ⟨n1, n2, n3, n4, n5⟩ := error_kinds_ne_listen
  have qall : ∀ e ∈ pre ++ post, e.1.isListen = false ∧ e.1.isBind = false := by
    intro e he
    rcases List.mem_append.1 he with h1 | h1
    · exact qpre e h1
    · exact qpost e h1
  have nb : ∀ e : Event, e.1.isBind = false → (e.1.isBind = true → e.2 < 0) :=
    fun e h1 h2 => by rw [h1] at h2; exact absurd h2 (by decide)
  intro ht
  rcases h with ⟨hlog, e, he, hk⟩ | ⟨fd, rb, hrb, hlog, he⟩ |
    ⟨hnt, fd, rb, hrb, hlog, hp, he⟩ | ⟨htcp, fd, rb, rl, hrb, hlog, he⟩
  · have hev := issued_of_log w _ (pre ++ post) (by rw [hlog, List.append_assoc])
    rw [hev, he]
    refine Or.inl ⟨fun e2 h2 => ⟨(qall e2 h2).1, nb e2 (qall e2 h2).2⟩, e, rfl, ?_⟩
    rcases hk with ⟨h, -, -⟩ | h | h | h <;> rw [h]
    · exact n1
    · exact n2
    · exact n3
    · exact n4
  · have hev := issued_of_log w _ (pre ++ [(Call.bind fd (⟨opts.domain.to_int, htons port,
      address.data.take 4⟩ : sockaddr_in), rb)] ++ post) (by
      rw [hlog]; simp)
    rw [hev, he]
    refine Or.inl ⟨?_, BindFailed, rfl, n5⟩
    intro e2 h2
    simp only [List.mem_append, List.mem_singleton] at h2
    rcases h2 with (h2 | h2) | h2
    · exact ⟨(qpre e2 h2).1, nb e2 (qpre e2 h2).2⟩
    · subst h2
      exact ⟨rfl, fun _ => hrb⟩
    · exact ⟨(qpost e2 h2).1, nb e2 (qpost e2 h2).2⟩
  · exact absurd ht hnt
  · have hev := issued_of_log w _ (pre ++ [(Call.bind fd (⟨opts.domain.to_int, htons port,
      address.data.take 4⟩ : sockaddr_in), rb),
      (Call.listen fd backlog, rl)] ++ post) (by rw [hlog]; simp)
    rw [hev, he]
    refine Or.inr ⟨pre, post, fd, rb, rl, rfl, hrb, fun e2 h2 => (qall e2 h2).1, ?_, ?_⟩
    · by_cases hl : rl < 0 <;> simp [hl]
    · intro hl
      simp [not_lt.2 hl]


/-- C7: `make_accept_socket` first runs `make_socket` and passes its failure on; then it issues
the reuse `setsockopt`, failing with `SocketOptionFailed` when it returns a negative value;
then the `bind` to the given address and port, failing with `BindFailed` when it returns a
negative value.  With transport = udp it then returns the bound Descriptor: no `listen` call is
issued, the failure is never `ListenFailed`, and the result is the Descriptor, whose successful
`bind` is the last call issued, or the creation, non-blocking, option or bind error.  With
transport = tcp it then issues `listen` on the same handle with the given backlog, fails with
`ListenFailed` when that call returns a negative value and returns the Descriptor otherwise:
either no `bind` call succeeded, and then no `listen` call is issued and the function fails
with an error other than `ListenFailed`; or the trace of the call contains the `bind` that
returned a non-negative value immediately followed by the one and only `listen` call, and the
function fails with `ListenFailed` exactly when that call returns a negative value. -/
theorem make_accept_socket_listen {σ : Type} (os : OS σ) (opts : options)
    (address : ip_address) (port : Nat) (backlog : Int) (w : World σ) :
    let res := make_accept_socket os opts address port backlog w
    let ev := World.issued w res.2
    let ms := make_socket os opts w
    let server : sockaddr_in := ⟨opts.domain.to_int, htons port, address.data.take 4⟩
    let so := fun s : socket =>
      syscall os ms.2 (.setsockopt s.m_fd SOL_SOCKET sock_opt_name (.int 1))
    let b := fun s : socket => syscall os (so s).2 (.bind s.m_fd server)
    let l := fun s : socket => syscall os (b s).2 (.listen s.m_fd backlog)
    (∀ e, ms.1 = .error e → res = (.error e, ms.2)) ∧
    (∀ s, ms.1 = .ok s →
      ((so s).1 < 0 → res = (.error SocketOptionFailed, socket.dtor os s (so s).2)) ∧
      (0 ≤ (so s).1 → (b s).1 < 0 → res = (.error BindFailed, socket.dtor os s (b s).2)) ∧
      (0 ≤ (so s).1 → 0 ≤ (b s).1 → opts.type_ = .udp → res = (.ok s, (b s).2)) ∧
      (0 ≤ (so s).1 → 0 ≤ (b s).1 → opts.type_ = .tcp → (l s).1 < 0 →
        res = (.error ListenFailed, socket.dtor os s (l s).2)) ∧
      (0 ≤ (so s).1 → 0 ≤ (b s).1 → opts.type_ = .tcp → 0 ≤ (l s).1 →
        res = (.ok s, (l s).2))) ∧
    (opts.type_ = .udp →
      (∀ e ∈ ev, e.1.isListen = false) ∧
      res.1 ≠ .error ListenFailed ∧
      ((∃ fd pre rb, res.1 = .ok ⟨fd⟩ ∧ ev = pre ++ [(Call.bind fd server, rb)] ∧ 0 ≤ rb) ∨
        res.1 = .error SocketCreationFailed ∨
        res.1 = .error NonBlockingConfigurationFailed ∨
        res.1 = .error SocketOptionFailed ∨
        res.1 = .error BindFailed)) ∧
    (opts.type_ = .tcp →
      ((∀ e ∈ ev, e.1.isListen = false ∧ (e.1.isBind = true → e.2 < 0)) ∧
        ∃ e, res.1 = .error e ∧ e ≠ ListenFailed) ∨
      (∃ pre post fd rb rl,
        ev = pre ++ [(Call.bind fd server, rb), (Call.listen fd backlog, rl)] ++ post ∧
        0 ≤ rb ∧ (∀ e ∈ pre ++ post, e.1.isListen = false) ∧
        (res.1 = .error ListenFailed ↔ rl < 0) ∧
        (0 ≤ rl → res.1 = .ok ⟨fd⟩))) := by
  intro res ev ms server so b l
  refine ⟨?_, ?_, ?_, ?_⟩
  · intro e he
    exact make_accept_socket_error_case os opts address port backlog w e he
  · intro s hs
    exact make_accept_socket_ok_cases os opts address port backlog w ms.2 s (Prod.ext hs rfl)
  · exact make_accept_socket_udp_trace os opts address port backlog w
  · exact make_accept_socket_tcp_trace os opts address port backlog w

/-- In the booted kernel every call succeeds: a udp accepting socket on 127.0.0.1:8080 is the
Descriptor of handle 3 after its `bind`, and a tcp one is the Descriptor of handle 3 after its
`listen` with backlog 128. -/
theorem make_accept_socket_listen_witness :
    make_accept_socket posix ⟨.ipv4, .udp, .no⟩ ⟨.ipv4, [127, 0, 0, 1]⟩ 8080 128
        ⟨Kernel.boot, []⟩
      = (.ok ⟨3⟩, (syscall posix (syscall posix
          (make_socket posix ⟨.ipv4, .udp, .no⟩ ⟨Kernel.boot, []⟩).2
          (.setsockopt 3 SOL_SOCKET sock_opt_name (.int 1))).2
          (.bind 3 ⟨AF_INET, htons 8080, [127, 0, 0, 1]⟩)).2) ∧
    make_accept_socket posix ⟨.ipv4, .tcp, .no⟩ ⟨.ipv4, [127, 0, 0, 1]⟩ 8080 128
        ⟨Kernel.boot, []⟩
      = (.ok ⟨3⟩, (syscall posix (syscall posix (syscall posix
          (make_socket posix ⟨.ipv4, .tcp, .no⟩ ⟨Kernel.boot, []⟩).2
          (.setsockopt 3 SOL_SOCKET sock_opt_name (.int 1))).2
          (.bind 3 ⟨AF_INET, htons 8080, [127, 0, 0, 1]⟩)).2
          (.listen 3 128)).2) :=
  ⟨((make_accept_socket_listen posix ⟨.ipv4, .udp, .no⟩ ⟨.ipv4, [127, 0, 0, 1]⟩ 8080 128
      ⟨Kernel.boot, []⟩).2.1 ⟨3⟩ rfl).2.2.1 (by decide) (by decide) rfl,
   ((make_accept_socket_listen posix ⟨.ipv4, .tcp, .no⟩ ⟨.ipv4, [127, 0, 0, 1]⟩ 8080 128
      ⟨Kernel.boot, []⟩).2.1 ⟨3⟩ rfl).2.2.2.2 (by decide) (by decide) rfl (by decide)⟩

/-! ## `udp::peer` -/

/-- C9: whenever a constructor of `udp::peer` succeeds: the unbound / client constructor gives
`m_bound = false`, its Descriptor and its calls are those of `make_socket` on options with
transport = udp and blocking = non-blocking, and no `bind` call is issued; the bound constructor
gives `m_bound = true` and its Descriptor is the one `make_accept_socket` returns on such
options; the multicast constructor gives `m_bound = true` and its Descriptor is the one
`make_multicast_socket` returns on such options. -/
theorem peer_constructors {σ Sched : Type} (os : OS σ) (backlog : Int) (scheduler : Sched)
    (domain : domain_t) (bind_info : udp.info) (multicast_address : ip_address) (w : World σ) :
    (∀ p, (udp.peer.client os scheduler domain w).1 = .ok p →
      p.m_bound = false ∧
      (∃ opts : options, opts.domain = domain ∧ opts.type_ = .udp ∧ opts.blocking = .no ∧
        make_socket os opts w = (.ok p.m_socket, (udp.peer.client os scheduler domain w).2)) ∧
      ∀ e ∈ World.issued w (udp.peer.client os scheduler domain w).2, e.1.isBind = false) ∧
    (∀ p, (udp.peer.bound os backlog scheduler bind_info w).1 = .ok p →
      p.m_bound = true ∧
      ∃ opts : options, opts.type_ = .udp ∧ opts.blocking = .no ∧
        make_accept_socket os opts bind_info.address bind_info.port backlog w
          = (.ok p.m_socket, (udp.peer.bound os backlog scheduler bind_info w).2)) ∧
    (∀ p, (udp.peer.multicast os scheduler bind_info multicast_address w).1 = .ok p →
      p.m_bound = true ∧
      ∃ opts : options, opts.type_ = .udp ∧ opts.blocking = .no ∧
        make_multicast_socket os opts bind_info.address bind_info.port multicast_address w
          = (.ok p.m_socket,
             (udp.peer.multicast os scheduler bind_info multicast_address w).2)) := by
  refine ⟨?_, ?_, ?_⟩
  · intro p hp
    obtain ⟨⟨n, hn, q⟩, -⟩ := make_socket_trace os ⟨domain, .udp, .no⟩ w
    rcases hms : make_socket os ⟨domain, .udp, .no⟩ w with ⟨(e | s), w1⟩
    · simp [udp.peer.client, hms] at hp
    · simp only [udp.peer.client, hms, Except.ok.injEq] at hp ⊢
      subst hp
      refine ⟨rfl, ⟨⟨domain, .udp, .no⟩, rfl, rfl, rfl, hms⟩, ?_⟩
      rw [hms] at hn
      intro e he
      rw [issued_of_log _ _ _ hn] at he
      exact (q e he).2
  · intro p hp
    rcases hms : make_accept_socket os ⟨bind_info.address.domain, .udp, .no⟩
        bind_info.address bind_info.port backlog w with ⟨(e | s), w1⟩
    · simp [udp.peer.bound, hms] at hp
    · simp only [udp.peer.bound, hms, Except.ok.injEq] at hp ⊢
      subst hp
      exact ⟨rfl, ⟨bind_info.address.domain, .udp, .no⟩, rfl, rfl, hms⟩
  · intro p hp
    rcases hms : make_multicast_socket os ⟨bind_info.address.domain, .udp, .no⟩
        bind_info.address bind_info.port multicast_address w with ⟨(e | s), w1⟩
    · simp [udp.peer.multicast, hms] at hp
    · simp only [udp.peer.multicast, hms, Except.ok.injEq] at hp ⊢
      subst hp
      exact ⟨rfl, ⟨bind_info.address.domain, .udp, .no⟩, rfl, rfl, hms⟩

/-- The three constructors in the booted kernel: each succeeds with handle 3. -/
theorem peer_constructors_witness :
    ((udp.peer.client posix () .ipv4 ⟨Kernel.boot, []⟩).1 = .ok ⟨(), ⟨3⟩, false⟩ ∧
      (⟨(), ⟨3⟩, false⟩ : udp.peer Unit).m_bound = false) ∧
    ((udp.peer.bound posix 128 () ⟨⟨.ipv4, [0, 0, 0, 0]⟩, 9000⟩ ⟨Kernel.boot, []⟩).1
        = .ok ⟨(), ⟨3⟩, true⟩ ∧
      (⟨(), ⟨3⟩, true⟩ : udp.peer Unit).m_bound = true) ∧
    ((udp.peer.multicast posix () ⟨⟨.ipv4, [0, 0, 0, 0]⟩, 9000⟩ ⟨.ipv4, [224, 0, 0, 1]⟩
        ⟨Kernel.boot, []⟩).1 = .ok ⟨(), ⟨3⟩, true⟩ ∧
      (⟨(), ⟨3⟩, true⟩ : udp.peer Unit).m_bound = true) :=
  ⟨⟨rfl, ((peer_constructors posix 128 () .ipv4 ⟨⟨.ipv4, [0, 0, 0, 0]⟩, 9000⟩
      ⟨.ipv4, [224, 0, 0, 1]⟩ ⟨Kernel.boot, []⟩).1 ⟨(), ⟨3⟩, false⟩ rfl).1⟩,
   ⟨rfl, ((peer_constructors posix 128 () .ipv4 ⟨⟨.ipv4, [0, 0, 0, 0]⟩, 9000⟩
      ⟨.ipv4, [224, 0, 0, 1]⟩ ⟨Kernel.boot, []⟩).2.1 ⟨(), ⟨3⟩, true⟩ rfl).1⟩,
   ⟨rfl, ((peer_constructors posix 128 () .ipv4 ⟨⟨.ipv4, [0, 0, 0, 0]⟩, 9000⟩
      ⟨.ipv4, [224, 0, 0, 1]⟩ ⟨Kernel.boot, []⟩).2.2 ⟨(), ⟨3⟩, true⟩ rfl).1⟩⟩

/-! ## Copy assignment -/

theorem exec_getfl (k : Kernel) (fd : Int) (h : (k.exec (.fcntl_getfl fd)).1 ≠ -1) :
    k.flags_of fd = some (k.exec (.fcntl_getfl fd)).1 ∧ (k.exec (.fcntl_getfl fd)).2 = k := by
  rcases hf : k.flags_of fd with _ | f
  · simp [Kernel.exec, hf] at h
  · simp [Kernel.exec, hf]

theorem posix_getfl (k : Kernel) (fd : Int) (h : (posix k (.fcntl_getfl fd)).1 ≠ -1) :
    k.flags_of fd = some (posix k (.fcntl_getfl fd)).1 ∧
    (posix k (.fcntl_getfl fd)).2.flags_of fd = k.flags_of fd := by
  rcases k with ⟨fds, descs, faults⟩
  rcases faults with _ | ⟨b, rest⟩
  · have := exec_getfl ⟨fds, descs, []⟩ fd h
    exact ⟨this.1, by show (Kernel.exec _ _).2.flags_of fd = _; rw [this.2]⟩
  · cases b
    · have := exec_getfl ⟨fds, descs, rest⟩ fd h
      exact ⟨this.1, by show (Kernel.exec _ _).2.flags_of fd = _; rw [this.2]; rfl⟩
    · exact absurd rfl h

theorem update_desc_flags (k : Kernel) (fd fl : Int)
    (h : (k.update_desc fd (fun d => { d with flags := fl })).1 = 0) :
    (k.update_desc fd (fun d => { d with flags := fl })).2.flags_of fd = some fl := by
  rcases hi : k.desc_index fd with _ | i
  · simp [Kernel.update_desc, hi] at h
  · rcases hd : k.descs[i]? with _ | d
    · simp [Kernel.update_desc, hi, hd] at h
    · have hlt : i < k.descs.length := by
        by_contra hc
        simp [List.getElem?_eq_none (not_lt.1 hc)] at hd
      have hi2 : Kernel.desc_index { k with descs := k.descs.set i { d with flags := fl } } fd
          = some i := hi
      simp [Kernel.update_desc, hi, hd, Kernel.flags_of, Kernel.desc, hi2,
        List.getElem?_set_self hlt]

theorem posix_setfl (k : Kernel) (fd fl : Int) (h : (posix k (.fcntl_setfl fd fl)).1 = 0) :
    (posix k (.fcntl_setfl fd fl)).2.flags_of fd = some fl := by
  rcases k with ⟨fds, descs, faults⟩
  rcases faults with _ | ⟨b, rest⟩
  · exact update_desc_flags ⟨fds, descs, []⟩ fd fl h
  · cases b
    · exact update_desc_flags ⟨fds, descs, rest⟩ fd fl h
    · exact absurd h (show ¬ ((-1 : Int) = 0) by decide)

theorem blocking_true {σ : Type} (os : OS σ) (s : socket) (b : blocking_t) (w : World σ)
    (h : (socket.blocking os s b w).1 = true) :
    (os w.st (.fcntl_getfl s.m_fd)).1 ≠ -1 ∧
    (socket.blocking os s b w).2.1 = s ∧
    (os (os w.st (.fcntl_getfl s.m_fd)).2 (.fcntl_setfl s.m_fd
      (if b = .yes then Int.land (os w.st (.fcntl_getfl s.m_fd)).1 (Int.lnot O_NONBLOCK)
        else Int.lor (os w.st (.fcntl_getfl s.m_fd)).1 O_NONBLOCK))).1 = 0 ∧
    (socket.blocking os s b w).2.2.st =
      (os (os w.st (.fcntl_getfl s.m_fd)).2 (.fcntl_setfl s.m_fd
        (if b = .yes then Int.land (os w.st (.fcntl_getfl s.m_fd)).1 (Int.lnot O_NONBLOCK)
          else Int.lor (os w.st (.fcntl_getfl s.m_fd)).1 O_NONBLOCK))).2 := by
  by_cases hfd : s.m_fd < 0
  · simp [socket.blocking, hfd] at h
  · by_cases hrd : (syscall os w (.fcntl_getfl s.m_fd)).1 = -1
    · simp [socket.blocking, hfd, hrd] at h
    · have h2 := h
      simp only [socket.blocking, hfd, hrd, if_false, decide_eq_true_eq] at h2
      refine ⟨hrd, ?_, h2, ?_⟩
      · simp only [socket.blocking, hfd, hrd, if_false]
      · simp only [socket.blocking, hfd, hrd, if_false]
        rfl

/-- C4, as the claim states it, fails: on the socket `make_socket` creates in non-blocking
mode (handle 3), `blocking(non-blocking)` and then `blocking(blocking)` both succeed, the
Descriptor was non-blocking before the two calls and is blocking after them. -/
theorem blocking_roundtrip_counterexample :
    (make_socket posix ⟨.ipv4, .udp, .no⟩ ⟨Kernel.boot, []⟩).1 = .ok ⟨3⟩ ∧
    (socket.blocking posix ⟨3⟩ .no
      (make_socket posix ⟨.ipv4, .udp, .no⟩ ⟨Kernel.boot, []⟩).2).1 = true ∧
    (socket.blocking posix ⟨3⟩ .yes (socket.blocking posix ⟨3⟩ .no
      (make_socket posix ⟨.ipv4, .udp, .no⟩ ⟨Kernel.boot, []⟩).2).2.2).1 = true ∧
    (make_socket posix ⟨.ipv4, .udp, .no⟩ ⟨Kernel.boot, []⟩).2.st.nonblocking 3 = some true ∧
    (socket.blocking posix ⟨3⟩ .yes (socket.blocking posix ⟨3⟩ .no
      (make_socket posix ⟨.ipv4, .udp, .no⟩ ⟨Kernel.boot, []⟩).2).2.2).2.2.st.nonblocking 3
      = some false := by
  refine ⟨rfl, by decide, by decide, by decide, ?_⟩
  have hfl : (socket.blocking posix ⟨3⟩ .yes (socket.blocking posix ⟨3⟩ .no
      (make_socket posix ⟨.ipv4, .udp, .no⟩ ⟨Kernel.boot, []⟩).2).2.2).2.2.st.flags_of 3
      = some (Int.land (Int.lor (Int.lor O_RDWR O_NONBLOCK) O_NONBLOCK) (Int.lnot O_NONBLOCK)) :=
    rfl
  simp only [Kernel.nonblocking, hfl, Option.map_some']
  simp [Int.testBit_land, Int.testBit_lnot, testBit_O_NONBLOCK, O_NONBLOCK_BIT]

/-- C4, amended: if `blocking(non-blocking)` followed by `blocking(blocking)` both succeed,
then after the two calls the `O_NONBLOCK` bit of the Descriptor's flags is cleared (the
effective mode is blocking) whatever the mode was before, and every other flag bit is as it was
before the two calls; so the effective mode after the two calls equals the mode before them
exactly when the Descriptor was in blocking mode before. -/
theorem blocking_no_then_yes (k : Kernel) (log : List Event) (s : socket) :
    let r1 := socket.blocking posix s .no ⟨k, log⟩
    let r2 := socket.blocking posix r1.2.1 .yes r1.2.2
    r1.1 = true → r2.1 = true →
      (∃ f0 f2, k.flags_of s.m_fd = some f0 ∧ r2.2.2.st.flags_of s.m_fd = some f2 ∧
        Int.testBit f2 O_NONBLOCK_BIT = false ∧
        ∀ i, i ≠ O_NONBLOCK_BIT → Int.testBit f2 i = Int.testBit f0 i) ∧
      r2.2.2.st.nonblocking s.m_fd = some false ∧
      (r2.2.2.st.nonblocking s.m_fd = k.nonblocking s.m_fd ↔
        k.nonblocking s.m_fd = some false) := by
  intro r1 r2 h1 h2
  obtain ⟨g1, e1, s1, st1⟩ := blocking_true posix s .no ⟨k, log⟩ h1
  have h2' : (socket.blocking posix s .yes r1.2.2).1 = true := by
    have : r1.2.1 = s := e1
    rw [← this]; exact h2
  obtain ⟨g2, -, s2, st2⟩ := blocking_true posix s .yes r1.2.2 h2'
  simp only [reduceCtorEq, if_false, if_true] at s1 st1 s2 st2
  obtain ⟨hf0, hf0'⟩ := posix_getfl k s.m_fd g1
  have hf1 := posix_setfl _ s.m_fd _ s1
  rw [← st1] at hf1
  obtain ⟨hg2, -⟩ := posix_getfl r1.2.2.st s.m_fd g2
  rw [hf1] at hg2
  have hf2 := posix_setfl _ s.m_fd _ s2
  rw [← st2] at hf2
  have hst : r2.2.2.st = (socket.blocking posix s .yes r1.2.2).2.2.st := by
    have : r1.2.1 = s := e1
    show (socket.blocking posix r1.2.1 .yes r1.2.2).2.2.st = _
    rw [this]
  rw [← hst] at hf2
  simp only [Option.some.injEq] at hg2
  have hbit : Int.testBit (Int.land (posix r1.2.2.st (.fcntl_getfl s.m_fd)).1
      (Int.lnot O_NONBLOCK)) O_NONBLOCK_BIT = false := by
    simp [Int.testBit_land, Int.testBit_lnot, testBit_O_NONBLOCK, O_NONBLOCK_BIT]
  have hnb : r2.2.2.st.nonblocking s.m_fd = some false := by
    simp only [Kernel.nonblocking, hf2, Option.map_some', hbit]
  refine ⟨⟨_, _, hf0, hf2, hbit, ?_⟩, hnb, ?_⟩
  · intro i hi
    have hne : ¬ (11 = i) := fun e => hi (by simp [O_NONBLOCK_BIT, ← e])
    rw [← hg2]
    simp [Int.testBit_land, Int.testBit_lnot, Int.testBit_lor, testBit_O_NONBLOCK, hne]
  · rw [hnb]
    exact eq_comm

/-- On handle 0 of the booted kernel both calls succeed and the mode ends blocking. -/
theorem blocking_no_then_yes_witness :
    (socket.blocking posix ⟨0⟩ .no ⟨Kernel.boot, []⟩).1 = true ∧
    (socket.blocking posix ⟨0⟩ .yes
      (socket.blocking posix ⟨0⟩ .no ⟨Kernel.boot, []⟩).2.2).2.2.st.nonblocking 0
      = some false :=
  ⟨by decide, (blocking_no_then_yes Kernel.boot [] ⟨0⟩ (by decide) (by decide)).2.1⟩

/-! ## The reuse options of `make_accept_socket` -/

/-- C8: on Linux the option name `SO_REUSEADDR | SO_REUSEPORT` is `2 | 15 = 15`, which is
`SO_REUSEPORT` alone.  A successful `make_accept_socket` issues a single `setsockopt`, with
that name, so on the returned Descriptor (handle 3) port reuse is enabled and address reuse is
not. -/
theorem make_accept_socket_reuse_options :
    sock_opt_name = SO_REUSEPORT ∧ sock_opt_name ≠ SO_REUSEADDR ∧
    (make_accept_socket posix ⟨.ipv4, .tcp, .no⟩ ⟨.ipv4, [0, 0, 0, 0]⟩ 8080 128
      ⟨Kernel.boot, []⟩).1 = .ok ⟨3⟩ ∧
    (make_accept_socket posix ⟨.ipv4, .tcp, .no⟩ ⟨.ipv4, [0, 0, 0, 0]⟩ 8080 128
      ⟨Kernel.boot, []⟩).2.log
      = [(Call.socket AF_INET SOCK_STREAM 0, 3), (Call.fcntl_getfl 3, O_RDWR),
         (Call.fcntl_setfl 3 (Int.lor O_RDWR O_NONBLOCK), 0),
         (Call.setsockopt 3 SOL_SOCKET SO_REUSEPORT (.int 1), 0),
         (Call.bind 3 ⟨AF_INET, [31, 144], [0, 0, 0, 0]⟩, 0), (Call.listen 3 128, 0)] ∧
    (make_accept_socket posix ⟨.ipv4, .tcp, .no⟩ ⟨.ipv4, [0, 0, 0, 0]⟩ 8080 128
      ⟨Kernel.boot, []⟩).2.st.option_enabled 3 SOL_SOCKET SO_REUSEPORT = true ∧
    (make_accept_socket posix ⟨.ipv4, .tcp, .no⟩ ⟨.ipv4, [0, 0, 0, 0]⟩ 8080 128
      ⟨Kernel.boot, []⟩).2.st.option_enabled 3 SOL_SOCKET SO_REUSEADDR = false := by
  refine ⟨?_, ?_, rfl, ?_, ?_, ?_⟩ <;> decide

end coro.net
